import Mathlib

/-!
Verification of the AI-Guardian risk-scoring and crisis-escalation core.

The repository ships mock handlers (`NANDAService.handleSafetyAnalysis`,
`MLService.analyzeContent`), the NANDA configuration module, the API error
handler, and UI components; the scoring core itself (composite risk scorer,
signal normalizer, crisis state machine, cultural bias analyzer) exists in
the repository only as its declared data contracts, callers and prose
design.  Those missing components are modelled here from the spec; the
parts that do exist in the source (`handleSafetyAnalysis`, `errorHandler`,
`validateNANDAConfig`) are embedded directly from the TypeScript.
-/

namespace AIGuardian

/-- The five risk features of a `SignalSnapshot` (spec section 3). -/
inductive FeatureKind
| contentSafety
| behavioral
| temporal
| emotional
| cumulativeExposure
deriving DecidableEq, Repr

/-- Modelled from the spec: the fixed, versioned weight table of the
Composite Risk Scorer (section 4.2): content safety 0.30, behavioral
pattern 0.25, temporal 0.20, emotional indicator 0.15, cumulative
exposure 0.10.  Missing from src (only mock handlers exist there). -/
def defaultWeights : FeatureKind → ℚ
| .contentSafety => 3/10
| .behavioral => 1/4
| .temporal => 1/5
| .emotional => 3/20
| .cumulativeExposure => 1/10

/-- Clamp a rational to the interval [0,1]. -/
def clamp01 (x : ℚ) : ℚ := if x < 0 then 0 else if 1 < x then 1 else x

/-- Modelled from the spec: the raw weighted sum of the five features,
`Σ(weight_i × feature_i)` (section 4.2). -/
def compositeRawWith (w : FeatureKind → ℚ) (v : FeatureKind → ℚ) : ℚ :=
  w .contentSafety * v .contentSafety
    + w .behavioral * v .behavioral
    + w .temporal * v .temporal
    + w .emotional * v .emotional
    + w .cumulativeExposure * v .cumulativeExposure

/-- Composite score under the default weight table, clamped to [0,1]. -/
def compositeScore (v : FeatureKind → ℚ) : ℚ :=
  clamp01 (compositeRawWith defaultWeights v)

/-- The four risk levels of a `RiskAssessment` (spec section 3). -/
inductive RiskLevel
| low
| medium
| high
| critical
deriving DecidableEq, Repr

/-- Modelled from the spec: the risk-level mapping of section 4.2 with
closed lower bounds: `score < 0.30` low, `0.30 ≤ score < 0.60` medium,
`0.60 ≤ score < 0.85` high, `score ≥ 0.85` critical. -/
def riskLevelOf (s : ℚ) : RiskLevel :=
  if s < 3/10 then .low
  else if s < 3/5 then .medium
  else if s < 17/20 then .high
  else .critical

/-- Feature values of concrete scenario A of the spec (section 8). -/
def scenarioA : FeatureKind → ℚ
| .contentSafety => 9/10
| .behavioral => 1/5
| .temporal => 1/10
| .emotional => 1/10
| .cumulativeExposure => 1/10

/-- Replace the value of one feature, leaving every other feature fixed. -/
def updateF (v : FeatureKind → ℚ) (k : FeatureKind) (x : ℚ) :
    FeatureKind → ℚ :=
  fun j => if j = k then x else v j

/-- Modelled from the spec: the reference taxonomy of cultural/group
categories of the Cultural Bias Matrix Analyzer (section 4.5), which is
missing from src (only the UI that renders its output exists there). -/
inductive Category
| gender
| socioeconomic
| culturalOrigin
| indigenousVoice
| globalSouthVoice
deriving DecidableEq, Repr

/-- The full reference taxonomy as an ordered list. -/
def taxonomy : List Category :=
  [.gender, .socioeconomic, .culturalOrigin, .indigenousVoice,
    .globalSouthVoice]

/-- Modelled from the spec: the intersectionality-matrix weight of each
taxonomy category, normalized so the weights sum to 1 (section 4.5). -/
def iweight : Category → ℚ
| .gender => 1/4
| .socioeconomic => 1/4
| .culturalOrigin => 1/5
| .indigenousVoice => 3/20
| .globalSouthVoice => 3/20

/-- Modelled from the spec: the minimum presence threshold a category must
reach in the content to count as represented (section 4.5). -/
def presenceThreshold : ℚ := 1/10

/-- Modelled from the spec: `representationScore` is the
intersectionality-weighted fraction of taxonomy categories whose presence
in the content reaches the minimum threshold (section 4.5). -/
def representationScore (p : Category → ℚ) : ℚ :=
  (taxonomy.map
    (fun c => if presenceThreshold ≤ p c then iweight c else 0)).sum

/-- Modelled from the spec: `missingPerspectives` is the taxonomy
complement below threshold (section 4.5). -/
def missingPerspectives (p : Category → ℚ) : List Category :=
  taxonomy.filter (fun c => decide (p c < presenceThreshold))

/-- Modelled from the spec: which categories are flagged as
demographically significant for the content's audience age band. -/
def demographicallySignificant : Category → Bool
| .gender => true
| .socioeconomic => true
| .culturalOrigin => true
| .indigenousVoice => false
| .globalSouthVoice => false

/-- Modelled from the spec: `overallBiasScore` is `1 − representationScore`
(section 4.5). -/
def overallBiasScore (p : Category → ℚ) : ℚ := 1 - representationScore p

/-- Declared cultural context of a content item (spec section 3). -/
inductive CulturalContext
| western
| eastern
| indigenous
| globalSouth
| unclassified
deriving DecidableEq, Repr

/-- Display name of a taxonomy category, used for cultural markers. -/
def categoryName : Category → String
| .gender => "gender"
| .socioeconomic => "socioeconomic"
| .culturalOrigin => "cultural origin"
| .indigenousVoice => "indigenous voice"
| .globalSouthVoice => "global south voice"

/-- The `CulturalBiasAnalysis` record of the spec's data model
(section 3). -/
structure CulturalBiasAnalysis where
  contentId : String
  culturalContext : CulturalContext
  representationScore : ℚ
  culturalMarkers : List String
  missingPerspectives : List Category
  underrepresentedGroups : List Category
  overallBiasScore : ℚ
deriving DecidableEq, Repr

/-- Modelled from the spec: `analyzeBias(contentId, culturalContext,
contentFeatures) → CulturalBiasAnalysis` (sections 4.5 and 6), missing
from src. -/
def analyzeBias (contentId : String) (ctx : CulturalContext)
    (p : Category → ℚ) : CulturalBiasAnalysis :=
  { contentId := contentId
    culturalContext := ctx
    representationScore := representationScore p
    culturalMarkers :=
      (taxonomy.filter
        (fun c => decide (presenceThreshold ≤ p c))).map categoryName
    missingPerspectives := missingPerspectives p
    underrepresentedGroups :=
      (missingPerspectives p).filter demographicallySignificant
    overallBiasScore := overallBiasScore p }

/-- Replace the presence value of one taxonomy category, leaving every
other category fixed. -/
def updateC (p : Category → ℚ) (c : Category) (x : ℚ) : Category → ℚ :=
  fun j => if j = c then x else p j

/-- The `SignalSnapshot` of the spec's data model (section 3): structural
identifiers plus the five normalized feature values with confidences and
the audit record of any neutral-default substitutions (section 4.1). -/
structure SignalSnapshot where
  childId : String
  eventId : String
  timestamp : ℕ
  value : FeatureKind → ℚ
  conf : FeatureKind → ℚ
  substituted : FeatureKind → Bool
  substitutionReason : FeatureKind → Option String

/-- Modelled from the spec: the configuration surface of the Composite
Risk Scorer (section 6): a versioned weight table and the three
risk-level thresholds.  Missing from src. -/
structure ScorerConfig where
  w : FeatureKind → ℚ
  tLow : ℚ
  tMed : ℚ
  tHigh : ℚ

/-- Sum of the five weights of a weight table. -/
def weightsSum (w : FeatureKind → ℚ) : ℚ :=
  w .contentSafety + w .behavioral + w .temporal + w .emotional
    + w .cumulativeExposure

/-- Thresholds must be monotonic and non-overlapping (section 6). -/
def thresholdsValid (c : ScorerConfig) : Prop :=
  0 < c.tLow ∧ c.tLow < c.tMed ∧ c.tMed < c.tHigh ∧ c.tHigh ≤ 1

instance (c : ScorerConfig) : Decidable (thresholdsValid c) := by
  unfold thresholdsValid; infer_instance

/-- The default configuration: the spec's weight table and the 0.30 /
0.60 / 0.85 risk-level thresholds. -/
def defaultConfig : ScorerConfig :=
  { w := defaultWeights, tLow := 3/10, tMed := 3/5, tHigh := 17/20 }

/-- Startup outcome: either a validated configuration ready to serve, or
a fatal `ConfigurationError`. -/
inductive StartupState
| started (c : ScorerConfig)
| configurationError

/-- Modelled from the spec: startup validation (sections 4.2 and 7) —
the weight table must sum to 1.0 and the thresholds must be valid,
checked once at startup, `ConfigurationError` otherwise. -/
def validateStartup (c : ScorerConfig) : StartupState :=
  if weightsSum c.w = 1 ∧ thresholdsValid c then .started c
  else .configurationError

/-- Risk-level mapping under a configurable threshold table, closed
lower bounds (section 4.2). -/
def riskLevelWith (c : ScorerConfig) (s : ℚ) : RiskLevel :=
  if s < c.tLow then .low
  else if s < c.tMed then .medium
  else if s < c.tHigh then .high
  else .critical

/-- The `RiskAssessment` record of the spec's data model (section 3),
excluding the storage-assigned id and createdAt timestamp. -/
structure RiskAssessment where
  childId : String
  eventId : String
  compositeScore : ℚ
  riskLevel : RiskLevel
  factorBreakdown : FeatureKind → ℚ
  recommendations : List String
  confidence : ℚ

/-- Display name of a risk level, used in recommendation text. -/
def levelName : RiskLevel → String
| .low => "low"
| .medium => "medium"
| .high => "high"
| .critical => "critical"

/-- Display name of a feature, used in recommendation text. -/
def factorName : FeatureKind → String
| .contentSafety => "content safety"
| .behavioral => "behavioral pattern"
| .temporal => "temporal"
| .emotional => "emotional indicator"
| .cumulativeExposure => "cumulative exposure"

/-- Action text of the recommendation rule table, keyed on risk level. -/
def actionFor : RiskLevel → String
| .low => "continue routine monitoring"
| .medium => "review recent activity together"
| .high => "discuss the flagged content with the child"
| .critical => "escalate to the crisis workflow"

/-- Modelled from the spec: the deterministic recommendation rule table
keyed on the pair of risk level and dominant factor (sections 4.2 and
4.7), missing from src. -/
def recommendationTable (l : RiskLevel) (k : FeatureKind) : List String :=
  ["risk level " ++ levelName l ++ " driven by " ++ factorName k,
    actionFor l]

/-- Modelled from the spec: the dominant factor is the feature with the
largest weighted contribution (section 4.2); earlier features win ties. -/
def dominantFactor (w : FeatureKind → ℚ) (v : FeatureKind → ℚ) :
    FeatureKind :=
  [FeatureKind.behavioral, .temporal, .emotional,
    .cumulativeExposure].foldl
    (fun best k => if w best * v best < w k * v k then k else best)
    FeatureKind.contentSafety

/-- Modelled from the spec: the full `assessRisk` pipeline of sections
4.2 and 6 under a given configuration — weighted composite score clamped
to [0,1], risk level, weighted factor breakdown, rule-table
recommendations, and the confidence as the same weighted sum of the
feature confidences.  Missing from src (only mock handlers exist). -/
def assessRiskWith (c : ScorerConfig) (s : SignalSnapshot) :
    RiskAssessment :=
  let score := clamp01 (compositeRawWith c.w s.value)
  { childId := s.childId
    eventId := s.eventId
    compositeScore := score
    riskLevel := riskLevelWith c score
    factorBreakdown := fun k => c.w k * s.value k
    recommendations :=
      recommendationTable (riskLevelWith c score)
        (dominantFactor c.w s.value)
    confidence := compositeRawWith c.w s.conf }

/-- `assessRisk` under the default configuration. -/
def assessRisk : SignalSnapshot → RiskAssessment :=
  assessRiskWith defaultConfig

/-- Request serving after startup: a process that failed configuration
validation serves no request. -/
def serveRequest : StartupState → SignalSnapshot → Option RiskAssessment
| .configurationError, _ => none
| .started c, s => some (assessRiskWith c s)

/-- A concrete snapshot carrying the scenario-A feature values. -/
def snapshotA : SignalSnapshot :=
  { childId := "child-1"
    eventId := "event-1"
    timestamp := 0
    value := scenarioA
    conf := fun _ => 9/10
    substituted := fun _ => false
    substitutionReason := fun _ => none }

/-- A raw numeric signal value: either an actual number or NaN. -/
inductive RawValue
| num (q : ℚ)
| nan
deriving DecidableEq, Repr

/-- One raw feature of an inbound signal bundle: an optional value with
a confidence (section 4.1). -/
structure RawFeature where
  value : Option RawValue
  confidence : ℚ

/-- A raw inbound signal bundle before normalization: the structurally
required identifiers are optional here because their absence is exactly
what the normalizer must reject (section 4.1). -/
structure RawBundle where
  childId : Option String
  eventId : Option String
  timestamp : Option ℕ
  feats : FeatureKind → RawFeature

/-- A raw value is outside the declared domain when it is missing, NaN,
negative, or greater than 1 (section 4.1). -/
def outOfDomain : Option RawValue → Bool
| none => true
| some .nan => true
| some (.num q) => decide (q < 0) || decide (1 < q)

/-- The numeric content of an in-domain raw value. -/
def rawNum : Option RawValue → ℚ
| some (.num q) => q
| _ => 1/2

/-- Result of normalizing one feature: value, confidence, and the audit
record of any substitution. -/
structure NormalizedFeature where
  value : ℚ
  conf : ℚ
  substituted : Bool
  reason : Option String
deriving DecidableEq, Repr

/-- Modelled from the spec: per-feature normalization (section 4.1) —
an out-of-domain value is treated as `MissingSignal` and replaced by the
neutral default 0.5 with the confidence multiplied by 0.5, recording the
substitution; an in-domain value is kept with its confidence. -/
def normalizeFeature (rf : RawFeature) : NormalizedFeature :=
  if outOfDomain rf.value then
    { value := 1/2
      conf := rf.confidence * (1/2)
      substituted := true
      reason := some "missing signal: neutral default substituted" }
  else
    { value := rawNum rf.value
      conf := rf.confidence
      substituted := false
      reason := none }

/-- The structural-rejection error of the normalizer (section 7). -/
inductive NormalizeError
| invalidInput
deriving DecidableEq, Repr

/-- Decide whether an `Except` carries a success value. -/
def exceptOk {ε α : Type} : Except ε α → Bool
| .ok _ => true
| .error _ => false

/-- Modelled from the spec: the Signal Normalizer (section 4.1), missing
from src — fails with `InvalidInputError` exactly when childId, eventId
or timestamp is absent, and otherwise produces a `SignalSnapshot` by
per-feature normalization, never failing on a numeric feature. -/
def normalize (b : RawBundle) : Except NormalizeError SignalSnapshot :=
  match b.childId, b.eventId, b.timestamp with
  | some cid, some eid, some t =>
    .ok
      { childId := cid
        eventId := eid
        timestamp := t
        value := fun k => (normalizeFeature (b.feats k)).value
        conf := fun k => (normalizeFeature (b.feats k)).conf
        substituted := fun k => (normalizeFeature (b.feats k)).substituted
        substitutionReason :=
          fun k => (normalizeFeature (b.feats k)).reason }
  | _, _, _ => .error .invalidInput

/-- A concrete raw bundle: structural fields present, one in-domain
feature, and NaN / missing / too-large / negative features. -/
def bundleB : RawBundle :=
  { childId := some "child-1"
    eventId := some "event-2"
    timestamp := some 5
    feats := fun k =>
      match k with
      | .contentSafety => { value := some (.num (9/10)), confidence := 9/10 }
      | .behavioral => { value := some .nan, confidence := 4/5 }
      | .temporal => { value := none, confidence := 1 }
      | .emotional => { value := some (.num (3/2)), confidence := 1 }
      | .cumulativeExposure =>
        { value := some (.num (-1/2)), confidence := 1 } }

/-- The snapshot the normalizer produces for `bundleB`. -/
def snapshotB : SignalSnapshot :=
  { childId := "child-1"
    eventId := "event-2"
    timestamp := 5
    value := fun k => (normalizeFeature (bundleB.feats k)).value
    conf := fun k => (normalizeFeature (bundleB.feats k)).conf
    substituted := fun k => (normalizeFeature (bundleB.feats k)).substituted
    substitutionReason :=
      fun k => (normalizeFeature (bundleB.feats k)).reason }

/-- The per-child crisis escalation states (spec sections 3 and 4.6). -/
inductive CrisisState
| normal
| elevated
| crisisPending
| crisisConfirmed
| escalated
| resolved
deriving DecidableEq, Repr

/-- One candidate crisis signal: arrival time, assessed risk level,
emotional-risk feature and confidence (section 4.6). -/
structure CrisisSignal where
  time : ℕ
  level : RiskLevel
  emotionalRisk : ℚ
  confidence : ℚ

/-- Modelled from the spec: a qualifying signal is a risk assessment
reaching `high` (or `critical`), or an emotionalRisk alone exceeding
0.85, with confidence at least 0.7 (section 4.6).  Missing from src. -/
def qualifies (s : CrisisSignal) : Bool :=
  (s.level == .high || s.level == .critical
      || decide ((17:ℚ)/20 < s.emotionalRisk))
    && decide ((7:ℚ)/10 ≤ s.confidence)

/-- Every state other than `CrisisConfirmed` and `Escalated` decays back
to `Normal` when no qualifying signal arrives within the window
(section 4.6). -/
def decays : CrisisState → Bool
| .crisisConfirmed => false
| .escalated => false
| _ => true

/-- The per-child crisis machine: current state plus the timestamp of
entry into it — the spec permits no hidden state beyond these
(section 4.6). -/
structure CrisisMachine where
  state : CrisisState
  entry : ℕ
deriving DecidableEq, Repr

/-- Modelled from the spec: one transition of the Crisis Detector
(section 4.6), missing from src.  A decayable state first falls back to
`Normal` when the signal arrives outside the rolling window `W`; a
qualifying signal then advances
`Normal → Elevated → CrisisPending → CrisisConfirmed`. -/
def crisisStep (W : ℕ) (m : CrisisMachine) (s : CrisisSignal) :
    CrisisMachine :=
  let m' :=
    if decays m.state && decide (m.entry + W < s.time) then
      { state := .normal, entry := s.time }
    else m
  if qualifies s then
    match m'.state with
    | .normal => { state := .elevated, entry := s.time }
    | .elevated => { state := .crisisPending, entry := s.time }
    | .crisisPending => { state := .crisisConfirmed, entry := s.time }
    | _ => m'
  else m'

/-- Run the crisis machine over a sequence of signals. -/
def crisisRun (W : ℕ) (m : CrisisMachine) (sigs : List CrisisSignal) :
    CrisisMachine :=
  sigs.foldl (crisisStep W) m

/-- Escalation progress of a state: how many qualifying signals separate
it from `Normal` (confirmation and beyond count as 3). -/
def rank : CrisisState → ℕ
| .normal => 0
| .elevated => 1
| .crisisPending => 2
| .crisisConfirmed => 3
| .escalated => 3
| .resolved => 0

/-- Number of qualifying signals in a trace. -/
def countQ (sigs : List CrisisSignal) : ℕ :=
  (sigs.filter qualifies).length

/-- The state on the escalation path with a given rank. -/
def stateOfRank : ℕ → CrisisState
| 0 => .normal
| 1 => .elevated
| 2 => .crisisPending
| _ => .crisisConfirmed

/-- History invariant of the crisis machine relative to the signals seen
so far: each escalation stage is supported by that many qualifying
signals chained within the rolling window, and escalation is never
entered by the detector itself. -/
def chainInv (W : ℕ) (L : List CrisisSignal) (m : CrisisMachine) : Prop :=
  (m.state = .elevated →
    ∃ s1, s1 ∈ L ∧ qualifies s1 = true ∧ m.entry = s1.time)
  ∧ (m.state = .crisisPending →
    ∃ s1 s2, s1 ∈ L ∧ s2 ∈ L ∧ qualifies s1 = true ∧ qualifies s2 = true
      ∧ s2.time ≤ s1.time + W ∧ m.entry = s2.time)
  ∧ (m.state = .crisisConfirmed →
    ∃ s1 s2 s3, s1 ∈ L ∧ s2 ∈ L ∧ s3 ∈ L ∧ qualifies s1 = true
      ∧ qualifies s2 = true ∧ qualifies s3 = true
      ∧ s2.time ≤ s1.time + W ∧ s3.time ≤ s2.time + W)
  ∧ m.state ≠ .escalated

/-- Content type of a NANDA safety-analysis request
(src/apps/api/src/config/nanda.ts). -/
inductive ContentType
| video
| text
| image
| audio
| interactive
deriving DecidableEq, Repr

/-- Priority of a NANDA safety-analysis request. -/
inductive Priority
| low
| medium
| high
deriving DecidableEq, Repr

/-- `SafetyAnalysisRequest` of src/apps/api/src/config/nanda.ts. -/
structure SafetyAnalysisRequest where
  contentId : String
  contentType : ContentType
  contentUrl : Option String
  contentHash : String
  userId : String
  ageGroup : String
  priority : Priority
  timestamp : String

/-- The metadata object `handleSafetyAnalysis` attaches to a response:
both literal shapes of src/unnamed/part_005 are covered, the optional
fields being present only on the branch that sets them. -/
structure SafetyMetadata where
  phase : String
  integration : String
  analysisType : Option String
  error : Option Bool
  errorMessage : Option String
deriving DecidableEq, Repr

/-- `SafetyAnalysisResponse` of src/apps/api/src/config/nanda.ts, scores
as rationals. -/
structure SafetyAnalysisResponse where
  requestId : String
  contentId : String
  safetyScore : ℚ
  biasScore : ℚ
  riskScore : ℚ
  educationalScore : ℚ
  threats : List String
  recommendations : List String
  confidence : ℚ
  analysisTimestamp : String
  agentId : String
  metadata : SafetyMetadata

/-- Embedded from `NANDAService.handleSafetyAnalysis`
(src/unnamed/part_005, lines 119-173): the Phase-1 mock response and the
catch-all safe fallback.  `internalFailure` models an exception raised
inside the try block, `now` the `Date.now()` read and `nowIso` the ISO
timestamp; the TypeScript catch block swallows every exception, which is
why the embedding is a total function rather than an `Except`. -/
def handleSafetyAnalysis (agentId : String) (now : ℕ) (nowIso : String)
    (internalFailure : Bool) (errorMessage : String)
    (request : SafetyAnalysisRequest) : SafetyAnalysisResponse :=
  if internalFailure then
    { requestId := "nanda-error-" ++ toString now
      contentId := request.contentId
      safetyScore := 1/2
      biasScore := 1/2
      riskScore := 1/2
      educationalScore := 1/2
      threats := ["Analysis temporarily unavailable"]
      recommendations :=
        ["Please try again later or use standard AI Guardian analysis"]
      confidence := 0
      analysisTimestamp := nowIso
      agentId := agentId
      metadata :=
        { phase := "phase1"
          integration := "nanda"
          analysisType := none
          error := some true
          errorMessage := some errorMessage } }
  else
    { requestId := "nanda-" ++ toString now
      contentId := request.contentId
      safetyScore := 17/20
      biasScore := 3/25
      riskScore := 2/25
      educationalScore := 39/50
      threats := []
      recommendations := ["Content appears safe for the specified age group"]
      confidence := 23/25
      analysisTimestamp := nowIso
      agentId := agentId
      metadata :=
        { phase := "phase1"
          integration := "nanda"
          analysisType := some "mock"
          error := none
          errorMessage := none } }

/-- The error object the API error handler receives
(src/apps/api/src/middleware/errorHandler.ts): optional statusCode and
code, a message string. -/
structure ApiError where
  statusCode : Option ℕ
  message : String
  code : Option String
deriving DecidableEq, Repr

/-- The reply the API error handler sends. -/
structure ErrorReply where
  status : ℕ
  code : String
  message : String
deriving DecidableEq, Repr

/-- JavaScript `x || d` on an optional number: `undefined` and `0` are
falsy. -/
def jsOrNum (v : Option ℕ) (d : ℕ) : ℕ :=
  match v with
  | none => d
  | some n => if n = 0 then d else n

/-- JavaScript `s || d` on a string: the empty string is falsy. -/
def jsOrStr (v : String) (d : String) : String := if v = "" then d else v

/-- JavaScript `x || d` on an optional string. -/
def jsOrOptStr (v : Option String) (d : String) : String :=
  match v with
  | none => d
  | some s => if s = "" then d else s

/-- Embedded from `errorHandler`
(src/apps/api/src/middleware/errorHandler.ts, lines 8-39): statusCode
defaults to 500, message defaults to Internal Server Error, code to
INTERNAL_ERROR, and a 500 status hides the underlying message from the
client. -/
def errorHandler (error : ApiError) : ErrorReply :=
  let statusCode := jsOrNum error.statusCode 500
  let message := jsOrStr error.message "Internal Server Error"
  let code := jsOrOptStr error.code "INTERNAL_ERROR"
  let clientMessage :=
    if statusCode = 500 then "Internal Server Error" else message
  { status := statusCode, code := code, message := clientMessage }

/-- A 404 error carrying an empty message. -/
def err404empty : ApiError := { statusCode := some 404, message := "", code := none }

/-- A 500 error carrying the message boom. -/
def err500boom : ApiError := { statusCode := some 500, message := "boom", code := none }

/-- A 404 error carrying the message not found. -/
def err404found : ApiError := { statusCode := some 404, message := "not found", code := none }

/-- An error without a statusCode. -/
def errNoStatus : ApiError := { statusCode := none, message := "x", code := none }

end AIGuardian

namespace AIGuardian

/-- C1: `compositeScore` is the weighted sum
0.30·contentSafety + 0.25·behavioral + 0.20·temporal + 0.15·emotional +
0.10·cumulativeExposure clamped to [0,1]; on scenario A
(0.9, 0.2, 0.1, 0.1, 0.1) it equals 0.365 and maps to `medium`. -/
theorem c1_composite_weighted_sum :
    (∀ v : FeatureKind → ℚ,
      compositeScore v =
        clamp01 (3/10 * v .contentSafety + 1/4 * v .behavioral
          + 1/5 * v .temporal + 3/20 * v .emotional
          + 1/10 * v .cumulativeExposure))
    ∧ compositeScore scenarioA = 73/200
    ∧ riskLevelOf (compositeScore scenarioA) = .medium := by
  refine ⟨fun v => rfl, ?_, ?_⟩ <;>
    norm_num [compositeScore, compositeRawWith, defaultWeights, scenarioA,
      clamp01, riskLevelOf]

/-- C3: for every score in [0,1] the risk-level bands are
`s < 0.30` low, `0.30 ≤ s < 0.60` medium, `0.60 ≤ s < 0.85` high,
`s ≥ 0.85` critical, and each boundary value maps to the higher band. -/
theorem c3_risk_level_bands :
    (∀ s : ℚ, 0 ≤ s → s ≤ 1 →
      ((s < 3/10 ↔ riskLevelOf s = .low)
        ∧ (3/10 ≤ s ∧ s < 3/5 ↔ riskLevelOf s = .medium)
        ∧ (3/5 ≤ s ∧ s < 17/20 ↔ riskLevelOf s = .high)
        ∧ (17/20 ≤ s ↔ riskLevelOf s = .critical)))
    ∧ riskLevelOf (3/10) = .medium
    ∧ riskLevelOf (3/5) = .high
    ∧ riskLevelOf (17/20) = .critical := by
  refine ⟨?_, by norm_num [riskLevelOf], by norm_num [riskLevelOf],
    by norm_num [riskLevelOf]⟩
  intro s _ _
  unfold riskLevelOf
  split_ifs with ha hb hc
  · exact ⟨⟨fun _ => rfl, fun _ => ha⟩,
      ⟨fun hh => absurd hh.1 (not_le.mpr ha), fun hh => nomatch hh⟩,
      ⟨fun hh => absurd hh.1 (not_le.mpr (by linarith)), fun hh => nomatch hh⟩,
      ⟨fun hh => absurd hh (not_le.mpr (by linarith)), fun hh => nomatch hh⟩⟩
  · exact ⟨⟨fun hh => absurd hh ha, fun hh => nomatch hh⟩,
      ⟨fun _ => rfl, fun _ => ⟨not_lt.mp ha, hb⟩⟩,
      ⟨fun hh => absurd hb (not_lt.mpr hh.1), fun hh => nomatch hh⟩,
      ⟨fun hh => absurd hh (not_le.mpr (by linarith)), fun hh => nomatch hh⟩⟩
  · exact ⟨⟨fun hh => absurd hh ha, fun hh => nomatch hh⟩,
      ⟨fun hh => absurd hh.2 hb, fun hh => nomatch hh⟩,
      ⟨fun _ => rfl, fun _ => ⟨not_lt.mp hb, hc⟩⟩,
      ⟨fun hh => absurd hc (not_lt.mpr hh), fun hh => nomatch hh⟩⟩
  · exact ⟨⟨fun hh => absurd hh ha, fun hh => nomatch hh⟩,
      ⟨fun hh => absurd hh.2 hb, fun hh => nomatch hh⟩,
      ⟨fun hh => absurd hh.2 hc, fun hh => nomatch hh⟩,
      ⟨fun _ => rfl, fun _ => not_lt.mp hc⟩⟩

/-- Witness for C3: instantiation at the boundary score 0.30, which lies
in [0,1] and maps to `medium`. -/
theorem c3_risk_level_bands_witness :
    ((3:ℚ)/10 < 3/10 ↔ riskLevelOf (3/10) = .low)
      ∧ ((3:ℚ)/10 ≤ 3/10 ∧ (3:ℚ)/10 < 3/5 ↔ riskLevelOf (3/10) = .medium)
      ∧ ((3:ℚ)/5 ≤ 3/10 ∧ (3:ℚ)/10 < 17/20 ↔ riskLevelOf (3/10) = .high)
      ∧ ((17:ℚ)/20 ≤ 3/10 ↔ riskLevelOf (3/10) = .critical) :=
  c3_risk_level_bands.1 (3/10) (by norm_num) (by norm_num)

/-- Every intersectionality weight is nonnegative. -/
theorem iweight_nonneg (c : Category) : 0 ≤ iweight c := by
  cases c <;> norm_num [iweight]

/-- Clamping to [0,1] is monotone. -/
theorem clamp01_mono {x y : ℚ} (h : x ≤ y) : clamp01 x ≤ clamp01 y := by
  unfold clamp01
  split_ifs <;> linarith

/-- Increasing the presence of a single taxonomy category never decreases
the representation score. -/
theorem representationScore_mono (p : Category → ℚ) (c : Category) (x : ℚ)
    (h : p c ≤ x) :
    representationScore p ≤ representationScore (updateC p c x) := by
  unfold representationScore
  refine List.sum_le_sum ?_
  intro j _
  by_cases hj : j = c
  · subst hj
    simp only [updateC, if_pos rfl]
    split_ifs with h1 h2
    · exact le_refl _
    · exact absurd (le_trans h1 h) h2
    · exact iweight_nonneg j
    · exact le_refl _
  · simp [updateC, hj]

/-- C8: `overallBiasScore` always equals `1 − representationScore`; a
content item whose every taxonomy category sits below the presence
threshold yields `representationScore = 0`, `overallBiasScore = 1` and
`missingPerspectives` equal to the full taxonomy. -/
theorem c8_bias_is_complement_of_representation :
    (∀ (cid : String) (ctx : CulturalContext) (p : Category → ℚ),
      (analyzeBias cid ctx p).overallBiasScore
        = 1 - (analyzeBias cid ctx p).representationScore)
    ∧ (∀ (cid : String) (ctx : CulturalContext) (p : Category → ℚ),
        (∀ c, p c < presenceThreshold) →
          (analyzeBias cid ctx p).representationScore = 0
          ∧ (analyzeBias cid ctx p).overallBiasScore = 1
          ∧ (analyzeBias cid ctx p).missingPerspectives = taxonomy) := by
  refine ⟨fun cid ctx p => rfl, ?_⟩
  intro cid ctx p h
  have h1 : ∀ c, ¬ presenceThreshold ≤ p c := fun c => not_le.mpr (h c)
  refine ⟨?_, ?_, ?_⟩ <;>
    simp [analyzeBias, representationScore, missingPerspectives,
      overallBiasScore, taxonomy, h, h1]

/-- Witness for C8: the all-zero presence vector sits below the
threshold everywhere, scores representation 0 and bias 1, and misses the
whole taxonomy. -/
theorem c8_bias_is_complement_of_representation_witness :
    (analyzeBias "story-1" .unclassified (fun _ => 0)).representationScore
        = 0
    ∧ (analyzeBias "story-1" .unclassified (fun _ => 0)).overallBiasScore
        = 1
    ∧ (analyzeBias "story-1" .unclassified
        (fun _ => 0)).missingPerspectives = taxonomy :=
  c8_bias_is_complement_of_representation.2 "story-1" .unclassified
    (fun _ => 0) (fun c => by norm_num [presenceThreshold])

/-- C4 fails as stated: raising the `gender` presence of the all-zero
content-feature vector from 0 to 1 (all other categories fixed at 0)
strictly lowers `overallBiasScore` from 1 to 3/4, so increasing an input
can decrease `overallBiasScore`. -/
theorem c4_counterexample_bias_decreases :
    (0:ℚ) ≤ 1
    ∧ overallBiasScore (updateC (fun _ => 0) Category.gender 1)
        < overallBiasScore (fun _ => 0) := by
  constructor
  · norm_num
  · simp [overallBiasScore, representationScore, taxonomy, updateC,
      presenceThreshold, iweight]
    norm_num

/-- C4 (amended): increasing any single feature value, all others fixed,
never decreases `compositeScore`; increasing any single representation
input never decreases `representationScore` and hence never increases
`overallBiasScore` (which is antitone, being `1 − representationScore`).
-/
theorem c4_monotonicity :
    (∀ (v : FeatureKind → ℚ) (k : FeatureKind) (x : ℚ), v k ≤ x →
      compositeScore v ≤ compositeScore (updateF v k x))
    ∧ (∀ (p : Category → ℚ) (c : Category) (x : ℚ), p c ≤ x →
        representationScore p ≤ representationScore (updateC p c x)
        ∧ overallBiasScore (updateC p c x) ≤ overallBiasScore p) := by
  constructor
  · intro v k x h
    apply clamp01_mono
    cases k <;>
      · simp [compositeRawWith, updateF, defaultWeights]
        linarith
  · intro p c x h
    have hr := representationScore_mono p c x h
    exact ⟨hr, by unfold overallBiasScore; linarith⟩

/-- Witness for C4 (amended): raising `contentSafety` in scenario A from
0.9 to 1 and raising the `gender` presence from 0 to 1 on the all-zero
vector, both monotonicity conclusions hold. -/
theorem c4_monotonicity_witness :
    compositeScore scenarioA
      ≤ compositeScore (updateF scenarioA .contentSafety 1)
    ∧ representationScore (fun _ => 0)
        ≤ representationScore (updateC (fun _ => 0) Category.gender 1)
    ∧ overallBiasScore (updateC (fun _ => 0) Category.gender 1)
        ≤ overallBiasScore (fun _ => 0) :=
  ⟨c4_monotonicity.1 scenarioA .contentSafety 1 (by norm_num [scenarioA]),
    (c4_monotonicity.2 (fun _ => 0) Category.gender 1 (by norm_num)).1,
    (c4_monotonicity.2 (fun _ => 0) Category.gender 1 (by norm_num)).2⟩

/-- C5: a configuration whose weight table does not sum to 1.0, or whose
thresholds are invalid, fails startup with `ConfigurationError`, and no
request is ever served from that failed startup state; the default
configuration (weights 0.30/0.25/0.20/0.15/0.10, thresholds
0.30/0.60/0.85) validates successfully. -/
theorem c5_startup_validation :
    (∀ c : ScorerConfig, weightsSum c.w ≠ 1 ∨ ¬ thresholdsValid c →
      validateStartup c = .configurationError
      ∧ ∀ s : SignalSnapshot, serveRequest (validateStartup c) s = none)
    ∧ validateStartup defaultConfig = .started defaultConfig := by
  constructor
  · intro c h
    have hne : ¬ (weightsSum c.w = 1 ∧ thresholdsValid c) := by tauto
    have hv : validateStartup c = .configurationError := by
      unfold validateStartup
      exact if_neg hne
    exact ⟨hv, fun s => by rw [hv]; rfl⟩
  · unfold validateStartup
    rw [if_pos]
    constructor
    · norm_num [weightsSum, defaultConfig, defaultWeights]
    · refine ⟨?_, ?_, ?_, ?_⟩ <;> norm_num [defaultConfig, thresholdsValid]

/-- Witness for C5: the all-zero weight table (sum 0 ≠ 1) fails startup
and serves no request for the scenario-A snapshot. -/
theorem c5_startup_validation_witness :
    validateStartup
        { w := fun _ => 0, tLow := 3/10, tMed := 3/5, tHigh := 17/20 }
      = .configurationError
    ∧ serveRequest
        (validateStartup
          { w := fun _ => 0, tLow := 3/10, tMed := 3/5, tHigh := 17/20 })
        snapshotA = none :=
  ⟨(c5_startup_validation.1
      { w := fun _ => 0, tLow := 3/10, tMed := 3/5, tHigh := 17/20 }
      (.inl (by norm_num [weightsSum]))).1,
    (c5_startup_validation.1
      { w := fun _ => 0, tLow := 3/10, tMed := 3/5, tHigh := 17/20 }
      (.inl (by norm_num [weightsSum]))).2 snapshotA⟩

/-- C7: the assessment pipeline is deterministic — identical snapshots
produce identical composite score, risk level, factor breakdown,
recommendation text and confidence (the embedded `RiskAssessment`
carries no storage-assigned id or timestamp). -/
theorem c7_assessment_deterministic :
    ∀ s1 s2 : SignalSnapshot, s1 = s2 →
      (assessRisk s1).compositeScore = (assessRisk s2).compositeScore
      ∧ (assessRisk s1).riskLevel = (assessRisk s2).riskLevel
      ∧ (assessRisk s1).factorBreakdown = (assessRisk s2).factorBreakdown
      ∧ (assessRisk s1).recommendations = (assessRisk s2).recommendations
      ∧ (assessRisk s1).confidence = (assessRisk s2).confidence := by
  intro s1 s2 h
  subst h
  exact ⟨rfl, rfl, rfl, rfl, rfl⟩

/-- Witness for C7: two submissions of the scenario-A snapshot agree on
every assessment component. -/
theorem c7_assessment_deterministic_witness :
    (assessRisk snapshotA).compositeScore
        = (assessRisk snapshotA).compositeScore
    ∧ (assessRisk snapshotA).riskLevel = (assessRisk snapshotA).riskLevel
    ∧ (assessRisk snapshotA).factorBreakdown
        = (assessRisk snapshotA).factorBreakdown
    ∧ (assessRisk snapshotA).recommendations
        = (assessRisk snapshotA).recommendations
    ∧ (assessRisk snapshotA).confidence
        = (assessRisk snapshotA).confidence :=
  c7_assessment_deterministic snapshotA snapshotA rfl

/-- C6: normalization succeeds exactly when childId, eventId and
timestamp are all present (so it never fails on a numeric feature); every
out-of-domain feature value (missing, NaN, negative or above 1) is
replaced by the neutral default 0.5 with its confidence halved and the
substitution recorded, and every in-domain value is kept unchanged. -/
theorem c6_normalizer_contract :
    ∀ b : RawBundle,
      (exceptOk (normalize b)
        = (b.childId.isSome && b.eventId.isSome && b.timestamp.isSome))
      ∧ (∀ snap : SignalSnapshot, normalize b = .ok snap →
          ∀ k : FeatureKind,
            (outOfDomain (b.feats k).value = true →
              snap.value k = 1/2
              ∧ snap.conf k = (b.feats k).confidence * (1/2)
              ∧ snap.substituted k = true
              ∧ (snap.substitutionReason k).isSome = true)
            ∧ (outOfDomain (b.feats k).value = false →
              snap.value k = rawNum (b.feats k).value
              ∧ snap.conf k = (b.feats k).confidence
              ∧ snap.substituted k = false)) := by
  intro b
  rcases hc : b.childId with _ | cid
  · refine ⟨by simp [normalize, exceptOk, hc], ?_⟩
    intro snap hsnap
    simp [normalize, hc] at hsnap
  · rcases he : b.eventId with _ | eid
    · refine ⟨by simp [normalize, exceptOk, hc, he], ?_⟩
      intro snap hsnap
      simp [normalize, hc, he] at hsnap
    · rcases ht : b.timestamp with _ | t
      · refine ⟨by simp [normalize, exceptOk, hc, he, ht], ?_⟩
        intro snap hsnap
        simp [normalize, hc, he, ht] at hsnap
      · refine ⟨by simp [normalize, exceptOk, hc, he, ht], ?_⟩
        intro snap hsnap k
        simp only [normalize, hc, he, ht, Except.ok.injEq] at hsnap
        subst hsnap
        constructor
        · intro hod
          simp [normalizeFeature, hod]
        · intro hod
          simp [normalizeFeature, hod]

/-- Witness for C6: normalizing `bundleB` succeeds, keeps the in-domain
content-safety value, and substitutes the NaN behavioral feature with
0.5 at half confidence, recording the substitution. -/
theorem c6_normalizer_contract_witness :
    exceptOk (normalize bundleB)
      = (bundleB.childId.isSome && bundleB.eventId.isSome
          && bundleB.timestamp.isSome)
    ∧ snapshotB.value .behavioral = 1/2
    ∧ snapshotB.conf .behavioral
        = (bundleB.feats .behavioral).confidence * (1/2)
    ∧ snapshotB.substituted .behavioral = true
    ∧ (snapshotB.substitutionReason .behavioral).isSome = true
    ∧ snapshotB.value .contentSafety
        = rawNum (bundleB.feats .contentSafety).value
    ∧ snapshotB.substituted .contentSafety = false :=
  ⟨(c6_normalizer_contract bundleB).1,
    (((c6_normalizer_contract bundleB).2 snapshotB rfl .behavioral).1
      rfl).1,
    (((c6_normalizer_contract bundleB).2 snapshotB rfl .behavioral).1
      rfl).2.1,
    (((c6_normalizer_contract bundleB).2 snapshotB rfl .behavioral).1
      rfl).2.2.1,
    (((c6_normalizer_contract bundleB).2 snapshotB rfl .behavioral).1
      rfl).2.2.2,
    (((c6_normalizer_contract bundleB).2 snapshotB rfl
      .contentSafety).2 (by norm_num [bundleB, outOfDomain])).1,
    (((c6_normalizer_contract bundleB).2 snapshotB rfl
      .contentSafety).2 (by norm_num [bundleB, outOfDomain])).2.2⟩

/-- One crisis transition raises the escalation rank by at most one, and
only on a qualifying signal. -/
theorem crisisStep_rank (W : ℕ) (m : CrisisMachine) (s : CrisisSignal) :
    rank (crisisStep W m s).state
      ≤ rank m.state + (if qualifies s then 1 else 0) := by
  unfold crisisStep
  by_cases hq : qualifies s
  · by_cases hd : (decays m.state && decide (m.entry + W < s.time)) = true
    · simp only [hq, hd, if_true]
      simp [rank]
    · simp only [hq, hd, if_true, if_false]
      cases hstate : m.state <;> simp [rank, hstate]
  · by_cases hd : (decays m.state && decide (m.entry + W < s.time)) = true
    · simp only [hq, hd, if_true, if_false]
      simp [rank]
    · simp only [hq, hd, if_false]
      cases hstate : m.state <;> simp [rank, hstate]

/-- A qualifying cons adds one to the qualifying-signal count. -/
theorem countQ_cons (s : CrisisSignal) (rest : List CrisisSignal) :
    countQ (s :: rest) = (if qualifies s then 1 else 0) + countQ rest := by
  by_cases hq : qualifies s <;> simp [countQ, List.filter, hq]
  omega

/-- Over a whole trace the escalation rank rises by at most the number
of qualifying signals. -/
theorem crisisRun_rank (W : ℕ) (sigs : List CrisisSignal) :
    ∀ m : CrisisMachine,
      rank (crisisRun W m sigs).state ≤ rank m.state + countQ sigs := by
  induction sigs with
  | nil => intro m; simp [crisisRun, countQ]
  | cons s rest ih =>
    intro m
    have h1 := ih (crisisStep W m s)
    have h2 := crisisStep_rank W m s
    have h3 := countQ_cons s rest
    simp only [crisisRun, List.foldl_cons] at h1 ⊢
    omega

/-- When every signal of a trace lies inside the window [a, a+W] and the
machine starts on the escalation path with entry after a, no decay ever
fires and the final stage is exactly the capped count of qualifying
signals. -/
theorem crisisRun_window (W a : ℕ) :
    ∀ sigs : List CrisisSignal,
      (∀ s ∈ sigs, a ≤ s.time ∧ s.time ≤ a + W) →
      ∀ n : ℕ, n ≤ 3 → ∀ e : ℕ, a ≤ e →
        (crisisRun W ⟨stateOfRank n, e⟩ sigs).state
          = stateOfRank (min 3 (n + countQ sigs))
        ∧ a ≤ (crisisRun W ⟨stateOfRank n, e⟩ sigs).entry := by
  intro sigs
  induction sigs with
  | nil =>
    intro _ n hn e he
    refine ⟨?_, by simpa [crisisRun] using he⟩
    simp only [crisisRun, List.foldl_nil, countQ, List.filter_nil,
      List.length_nil]
    congr 1
    omega
  | cons s rest ih =>
    intro hb n hn e he
    have hs := hb s (by simp)
    have hrest : ∀ x ∈ rest, a ≤ x.time ∧ x.time ≤ a + W :=
      fun x hx => hb x (by simp [hx])
    have hnd : decide (e + W < s.time) = false :=
      decide_eq_false (by omega)
    by_cases hq : qualifies s
    · by_cases h3 : n = 3
      · subst h3
        have hstep : crisisStep W ⟨stateOfRank 3, e⟩ s
            = ⟨stateOfRank 3, e⟩ := by
          simp [crisisStep, stateOfRank, decays, hq, hnd]
        simp only [crisisRun, List.foldl_cons, hstep]
        have hr := ih hrest 3 le_rfl e he
        simp only [crisisRun] at hr
        refine ⟨?_, hr.2⟩
        rw [hr.1]
        congr 1
        rw [countQ_cons]
        simp only [hq, if_true]
        omega
      · have hn3 : n < 3 := by omega
        have hstep : crisisStep W ⟨stateOfRank n, e⟩ s
            = ⟨stateOfRank (n+1), s.time⟩ := by
          interval_cases n <;>
            simp [crisisStep, stateOfRank, decays, hq, hnd]
        simp only [crisisRun, List.foldl_cons, hstep]
        have hr := ih hrest (n+1) (by omega) s.time hs.1
        simp only [crisisRun] at hr
        refine ⟨?_, hr.2⟩
        rw [hr.1]
        congr 1
        rw [countQ_cons]
        simp only [hq, if_true]
        omega
    · have hstep : crisisStep W ⟨stateOfRank n, e⟩ s
          = ⟨stateOfRank n, e⟩ := by
        simp [crisisStep, hq, hnd]
      simp only [crisisRun, List.foldl_cons, hstep]
      have hr := ih hrest n hn e he
      simp only [crisisRun] at hr
      refine ⟨?_, hr.2⟩
      rw [hr.1]
      congr 1
      rw [countQ_cons, if_neg hq]
      omega

/-- The chain invariant is monotone in the list of seen signals. -/
theorem chainInv_mono {W : ℕ} {L L' : List CrisisSignal}
    {m : CrisisMachine} (hsub : ∀ x ∈ L, x ∈ L') (h : chainInv W L m) :
    chainInv W L' m := by
  obtain ⟨h1, h2, h3, h4⟩ := h
  refine ⟨?_, ?_, ?_, h4⟩
  · intro hst
    obtain ⟨s1, hm1, hq1, he⟩ := h1 hst
    exact ⟨s1, hsub s1 hm1, hq1, he⟩
  · intro hst
    obtain ⟨s1, s2, hm1, hm2, hq1, hq2, ht, he⟩ := h2 hst
    exact ⟨s1, s2, hsub s1 hm1, hsub s2 hm2, hq1, hq2, ht, he⟩
  · intro hst
    obtain ⟨s1, s2, s3, hm1, hm2, hm3, hq1, hq2, hq3, ht1, ht2⟩ := h3 hst
    exact ⟨s1, s2, s3, hsub s1 hm1, hsub s2 hm2, hsub s3 hm3,
      hq1, hq2, hq3, ht1, ht2⟩

/-- One step preserves the chain invariant, extending the seen list by
the processed signal. -/
theorem chainInv_step (W : ℕ) (m : CrisisMachine) (s : CrisisSignal)
    (L : List CrisisSignal) (h : chainInv W L m) :
    chainInv W (s :: L) (crisisStep W m s) := by
  have hmono : ∀ x ∈ L, x ∈ s :: L := fun x hx => List.mem_cons_of_mem s hx
  have hL : chainInv W (s :: L) m := chainInv_mono hmono h
  obtain ⟨h1, h2, h3, h4⟩ := hL
  unfold crisisStep
  by_cases hd : (decays m.state && decide (m.entry + W < s.time)) = true
  · rw [if_pos hd]
    by_cases hq : qualifies s = true
    · rw [if_pos hq]
      show chainInv W (s :: L) ⟨.elevated, s.time⟩
      refine ⟨?_, ?_, ?_, ?_⟩
      · intro _
        exact ⟨s, List.mem_cons_self s L, hq, rfl⟩
      · intro hst
        exact absurd hst (by simp)
      · intro hst
        exact absurd hst (by simp)
      · simp
    · rw [if_neg hq]
      show chainInv W (s :: L) ⟨.normal, s.time⟩
      refine ⟨?_, ?_, ?_, ?_⟩
      · intro hst
        exact absurd hst (by simp)
      · intro hst
        exact absurd hst (by simp)
      · intro hst
        exact absurd hst (by simp)
      · simp
  · rw [if_neg hd]
    by_cases hq : qualifies s = true
    · rw [if_pos hq]
      cases hstate : m.state with
      | normal =>
        show chainInv W (s :: L) ⟨.elevated, s.time⟩
        refine ⟨?_, ?_, ?_, ?_⟩
        · intro _
          exact ⟨s, List.mem_cons_self s L, hq, rfl⟩
        · intro hst
          exact absurd hst (by simp)
        · intro hst
          exact absurd hst (by simp)
        · simp
      | elevated =>
        obtain ⟨s1, hm1, hq1, he⟩ := h1 hstate
        have hin : s.time ≤ m.entry + W := by
          by_contra hcon
          apply hd
          rw [hstate]
          simp only [decays, Bool.true_and]
          exact decide_eq_true (by omega)
        show chainInv W (s :: L) ⟨.crisisPending, s.time⟩
        refine ⟨?_, ?_, ?_, ?_⟩
        · intro hst
          exact absurd hst (by simp)
        · intro _
          exact ⟨s1, s, hm1, List.mem_cons_self s L, hq1, hq,
            by omega, rfl⟩
        · intro hst
          exact absurd hst (by simp)
        · simp
      | crisisPending =>
        obtain ⟨s1, s2, hm1, hm2, hq1, hq2, ht, he⟩ := h2 hstate
        have hin : s.time ≤ m.entry + W := by
          by_contra hcon
          apply hd
          rw [hstate]
          simp only [decays, Bool.true_and]
          exact decide_eq_true (by omega)
        show chainInv W (s :: L) ⟨.crisisConfirmed, s.time⟩
        refine ⟨?_, ?_, ?_, ?_⟩
        · intro hst
          exact absurd hst (by simp)
        · intro hst
          exact absurd hst (by simp)
        · intro _
          exact ⟨s1, s2, s, hm1, hm2, List.mem_cons_self s L,
            hq1, hq2, hq, ht, by omega⟩
        · simp
      | crisisConfirmed =>
        show chainInv W (s :: L) m
        refine ⟨?_, ?_, fun _ => h3 hstate, h4⟩
        · intro hst
          exact absurd (hstate.symm.trans hst) (by decide)
        · intro hst
          exact absurd (hstate.symm.trans hst) (by decide)
      | escalated => exact absurd hstate h4
      | resolved =>
        show chainInv W (s :: L) m
        refine ⟨?_, ?_, ?_, h4⟩ <;> intro hst <;>
          exact absurd (hstate.symm.trans hst) (by decide)
    · rw [if_neg hq]
      show chainInv W (s :: L) m
      exact ⟨h1, h2, h3, h4⟩

/-- Running a trace preserves the chain invariant, extending the seen
list by the whole trace. -/
theorem crisisRun_chainInv (W : ℕ) :
    ∀ (sigs : List CrisisSignal) (m : CrisisMachine)
      (L : List CrisisSignal),
      chainInv W L m → chainInv W (L ++ sigs) (crisisRun W m sigs) := by
  intro sigs
  induction sigs with
  | nil =>
    intro m L h
    simpa [crisisRun] using h
  | cons s rest ih =>
    intro m L h
    have h1 := chainInv_step W m s L h
    have h2 := ih (crisisStep W m s) (s :: L) h1
    have hsub : ∀ x ∈ (s :: L) ++ rest, x ∈ L ++ s :: rest := by
      intro x hx
      simp only [List.mem_append, List.mem_cons] at hx ⊢
      tauto
    simp only [crisisRun, List.foldl_cons] at h2 ⊢
    exact chainInv_mono hsub h2

/-- C2: starting from `Normal`, (i) a trace with fewer than 3 qualifying
signals (risk `high`/`critical` or emotionalRisk above 0.85, confidence
at least 0.7) never moves the machine past `CrisisPending`; (ii) exactly
3 qualifying signals all inside one window of length W always reach
`CrisisConfirmed`; (iii) whenever `CrisisConfirmed` is reached the trace
contains three qualifying signals chained within the rolling window W;
(iv) a single signal alone never triggers confirmation. -/
theorem c2_crisis_confirmation_guard :
    (∀ (W a : ℕ) (sigs : List CrisisSignal), countQ sigs < 3 →
      (crisisRun W ⟨.normal, a⟩ sigs).state ≠ .crisisConfirmed
      ∧ (crisisRun W ⟨.normal, a⟩ sigs).state ≠ .escalated)
    ∧ (∀ (W a : ℕ) (sigs : List CrisisSignal),
        (∀ s ∈ sigs, a ≤ s.time ∧ s.time ≤ a + W) → countQ sigs = 3 →
          (crisisRun W ⟨.normal, a⟩ sigs).state = .crisisConfirmed)
    ∧ (∀ (W a : ℕ) (sigs : List CrisisSignal),
        (crisisRun W ⟨.normal, a⟩ sigs).state = .crisisConfirmed →
          ∃ s1 s2 s3, s1 ∈ sigs ∧ s2 ∈ sigs ∧ s3 ∈ sigs
            ∧ qualifies s1 = true ∧ qualifies s2 = true
            ∧ qualifies s3 = true
            ∧ s2.time ≤ s1.time + W ∧ s3.time ≤ s2.time + W)
    ∧ (∀ (W a : ℕ) (s : CrisisSignal),
        (crisisStep W ⟨.normal, a⟩ s).state ≠ .crisisConfirmed
        ∧ (crisisStep W ⟨.normal, a⟩ s).state ≠ .escalated) := by
  refine ⟨?_, ?_, ?_, ?_⟩
  · intro W a sigs hcount
    have hr := crisisRun_rank W sigs ⟨.normal, a⟩
    simp only [rank] at hr
    constructor
    · intro hst
      rw [hst] at hr
      simp [rank] at hr
      omega
    · intro hst
      rw [hst] at hr
      simp [rank] at hr
      omega
  · intro W a sigs hb hcount
    have hw := crisisRun_window W a sigs hb 0 (by omega) a le_rfl
    have : (crisisRun W ⟨.normal, a⟩ sigs).state
        = stateOfRank (min 3 (0 + countQ sigs)) := hw.1
    rw [this, hcount]
    have h33 : min 3 (0 + 3) = 3 := by norm_num
    rw [h33]
    rfl
  · intro W a sigs hconf
    have h0 : chainInv W [] ⟨.normal, a⟩ := by
      refine ⟨?_, ?_, ?_, ?_⟩ <;> intro hst <;>
        exact absurd hst (by simp)
    have hinv := crisisRun_chainInv W sigs ⟨.normal, a⟩ [] h0
    simp only [List.nil_append] at hinv
    exact hinv.2.2.1 hconf
  · intro W a s
    have hr := crisisStep_rank W ⟨.normal, a⟩ s
    simp only [rank] at hr
    constructor
    · intro hst
      rw [hst] at hr
      simp only [rank] at hr
      split_ifs at hr <;> omega
    · intro hst
      rw [hst] at hr
      simp only [rank] at hr
      split_ifs at hr <;> omega

/-- Witness for C2: with W ten minutes (600000 ms), three qualifying
high-risk signals at 0, 60000 and 120000 reach `CrisisConfirmed`; the
first two alone stop short of it; one alone never confirms. -/
theorem c2_crisis_confirmation_guard_witness :
    (crisisRun 600000 ⟨.normal, 0⟩
        [⟨0, .high, 9/10, 4/5⟩, ⟨60000, .high, 9/10, 4/5⟩,
          ⟨120000, .high, 9/10, 4/5⟩]).state = .crisisConfirmed
    ∧ (crisisRun 600000 ⟨.normal, 0⟩
        [⟨0, .high, 9/10, 4/5⟩, ⟨60000, .high, 9/10, 4/5⟩]).state
          ≠ .crisisConfirmed
    ∧ (crisisStep 600000 ⟨.normal, 0⟩ ⟨0, .high, 9/10, 4/5⟩).state
          ≠ .crisisConfirmed := by
  refine ⟨?_, ?_, ?_⟩
  · exact c2_crisis_confirmation_guard.2.1 600000 0
      [⟨0, .high, 9/10, 4/5⟩, ⟨60000, .high, 9/10, 4/5⟩,
        ⟨120000, .high, 9/10, 4/5⟩]
      (by intro s hs; fin_cases hs <;> norm_num)
      (by norm_num [countQ, List.filter, qualifies])
  · exact (c2_crisis_confirmation_guard.1 600000 0
      [⟨0, .high, 9/10, 4/5⟩, ⟨60000, .high, 9/10, 4/5⟩]
      (by norm_num [countQ, List.filter, qualifies])).1
  · exact (c2_crisis_confirmation_guard.2.2.2 600000 0
      ⟨0, .high, 9/10, 4/5⟩).1

/-- C9: `handleSafetyAnalysis` answers every request (it is a total
function — the TypeScript catch block swallows every exception), always
echoes the request's contentId, and on any internal failure returns the
safe fallback: all four scores 0.5, confidence 0.0 and metadata.error
true. -/
theorem c9_handle_safety_fallback :
    ∀ (agentId : String) (now : ℕ) (nowIso : String) (fail : Bool)
      (msg : String) (req : SafetyAnalysisRequest),
      (handleSafetyAnalysis agentId now nowIso fail msg req).contentId
          = req.contentId
      ∧ (fail = true →
          (handleSafetyAnalysis agentId now nowIso fail msg
              req).safetyScore = 1/2
          ∧ (handleSafetyAnalysis agentId now nowIso fail msg
              req).biasScore = 1/2
          ∧ (handleSafetyAnalysis agentId now nowIso fail msg
              req).riskScore = 1/2
          ∧ (handleSafetyAnalysis agentId now nowIso fail msg
              req).educationalScore = 1/2
          ∧ (handleSafetyAnalysis agentId now nowIso fail msg
              req).confidence = 0
          ∧ (handleSafetyAnalysis agentId now nowIso fail msg
              req).metadata.error = some true) := by
  intro agentId now nowIso fail msg req
  cases fail <;>
    simp [handleSafetyAnalysis]

/-- Witness for C9: a failing analysis of a concrete request echoes the
contentId and produces the neutral fallback scores. -/
theorem c9_handle_safety_fallback_witness :
    (handleSafetyAnalysis "aiguardian-safety-hub" 1700000000000
        "2023-11-14T22:13:20.000Z" true "Analysis failed"
        { contentId := "test-content-123"
          contentType := .text
          contentUrl := none
          contentHash := "abc123hash"
          userId := "user-456"
          ageGroup := "8-10"
          priority := .high
          timestamp := "2023-11-14T22:13:20.000Z" }).contentId
      = "test-content-123"
    ∧ (handleSafetyAnalysis "aiguardian-safety-hub" 1700000000000
        "2023-11-14T22:13:20.000Z" true "Analysis failed"
        { contentId := "test-content-123"
          contentType := .text
          contentUrl := none
          contentHash := "abc123hash"
          userId := "user-456"
          ageGroup := "8-10"
          priority := .high
          timestamp := "2023-11-14T22:13:20.000Z" }).confidence = 0
    ∧ (handleSafetyAnalysis "aiguardian-safety-hub" 1700000000000
        "2023-11-14T22:13:20.000Z" true "Analysis failed"
        { contentId := "test-content-123"
          contentType := .text
          contentUrl := none
          contentHash := "abc123hash"
          userId := "user-456"
          ageGroup := "8-10"
          priority := .high
          timestamp := "2023-11-14T22:13:20.000Z" }).metadata.error
      = some true := by
  have h := c9_handle_safety_fallback "aiguardian-safety-hub"
    1700000000000 "2023-11-14T22:13:20.000Z" true "Analysis failed"
    { contentId := "test-content-123"
      contentType := .text
      contentUrl := none
      contentHash := "abc123hash"
      userId := "user-456"
      ageGroup := "8-10"
      priority := .high
      timestamp := "2023-11-14T22:13:20.000Z" }
  exact ⟨h.1, (h.2 rfl).2.2.2.2.1, (h.2 rfl).2.2.2.2.2⟩

/-- C10 fails as stated: a 404 error carrying the empty message is
answered with the default text Internal Server Error, not with its
original (empty) message, so the message of a non-500 error is not
always forwarded unchanged. -/
theorem c10_counterexample_empty_message :
    (errorHandler err404empty).status = 404
    ∧ (errorHandler err404empty).message ≠ err404empty.message := by
  constructor <;>
    simp [errorHandler, err404empty, jsOrNum, jsOrStr, jsOrOptStr]

/-- C10 (amended): when the effective status (statusCode if present and
nonzero, else 500) is 500, the client sees exactly the text Internal
Server Error whatever the underlying message was; when the effective
status differs from 500 and the message is non-empty, the original
message is forwarded unchanged under that status; an absent statusCode
defaults to 500. -/
theorem c10_error_handler_sanitizes :
    (∀ e : ApiError, jsOrNum e.statusCode 500 = 500 →
      (errorHandler e).message = "Internal Server Error"
      ∧ (errorHandler e).status = 500)
    ∧ (∀ e : ApiError, jsOrNum e.statusCode 500 ≠ 500 → e.message ≠ "" →
      (errorHandler e).message = e.message
      ∧ (errorHandler e).status = jsOrNum e.statusCode 500)
    ∧ (∀ e : ApiError, e.statusCode = none →
      jsOrNum e.statusCode 500 = 500) := by
  refine ⟨?_, ?_, ?_⟩
  · intro e h
    simp [errorHandler, h]
  · intro e h hm
    simp [errorHandler, jsOrStr, h, hm]
  · intro e h
    simp [jsOrNum, h]

/-- Witness for C10 (amended): a 500 error with message boom is hidden;
a 404 error with message not found is forwarded as 404 not found; an
error without statusCode is treated as 500. -/
theorem c10_error_handler_sanitizes_witness :
    ((errorHandler err500boom).message = "Internal Server Error"
      ∧ (errorHandler err500boom).status = 500)
    ∧ ((errorHandler err404found).message = err404found.message
      ∧ (errorHandler err404found).status
          = jsOrNum err404found.statusCode 500)
    ∧ jsOrNum errNoStatus.statusCode 500 = 500 :=
  ⟨c10_error_handler_sanitizes.1 err500boom
      (by simp [err500boom, jsOrNum]),
    c10_error_handler_sanitizes.2.1 err404found
      (by simp [err404found, jsOrNum]) (by simp [err404found]),
    c10_error_handler_sanitizes.2.2 errNoStatus rfl⟩

end AIGuardian
